import Mathlib

/-!
Shallow embedding of src/src/components/PurchaseOrderEditor.jsx
(SyedBasha98/contract-operation).

Two linked views of the program are embedded:

1. a typed Document model (`PoState`: option key, header, item rows,
   sales strings) with the in-memory mutators (`addRow`, `removeRow`,
   `clearAllItems`, `newPO`, `setOption`, the sold-quantity edit
   handler) and the two reactive sync rules (`optionSync`,
   `syncSales`);

2. a JSON-value model (`JVal`) for the persistence/import layer
   (`migrate`, `importJSON`, `loadState`), since the code there
   operates on raw `JSON.parse` output whose shape is not guaranteed.

JavaScript numbers are modelled as exact scaled decimals (`JNum`: an
integer mantissa over a power-of-ten denominator); `parseNum` only
ever produces finite decimal fractions from digit strings, so exact
decimal arithmetic agrees with the float semantics on everything the
claims touch, and `jnVal` interprets them as rationals with
correctness lemmas for the comparison operators.  A thrown JS
exception is modelled as `Option.none`
(`normalizeItem`, `migrate`, `optionSync`) or as a dedicated result
constructor (`ImportResult.failed`).
-/

/-- Model of `parseNum`'s `String(v).replace(/[^\d.-]/g, "")`:
keep only ASCII digits, the dot and the minus sign. -/
def stripNum (s : String) : String :=
  String.mk (s.toList.filter (fun c => c.isDigit || c = '.' || c = '-'))

/-- Decimal value of a digit list, most significant first. -/
def digitsVal (ds : List Char) : Nat :=
  ds.foldl (fun a c => 10 * a + (c.toNat - 48)) 0

/-- A JavaScript number as an exact scaled decimal: the value is
`m / 10 ^ e`.  Every number the program computes with (`parseFloat`
results on stripped digit strings, clamps between them, the literal
0) is such a decimal, so this model is exact where binary floats are
only approximate. -/
structure JNum where
  m : Int
  e : Nat
deriving DecidableEq

/-- The rational value a `JNum` denotes. -/
def jnVal (a : JNum) : Rat := (a.m : Rat) / (10 : Rat) ^ a.e

/-- The number 0. -/
def jnZero : JNum := ⟨0, 0⟩

/-- JavaScript `===` on numbers: equality of the denoted values,
decided by cross multiplication. -/
def jnEq (a b : JNum) : Bool := a.m * (10 : Int) ^ b.e = b.m * (10 : Int) ^ a.e

/-- Order on the denoted values, decided by cross multiplication. -/
def jnLe (a b : JNum) : Bool := a.m * (10 : Int) ^ b.e ≤ b.m * (10 : Int) ^ a.e

/-- JavaScript `Math.min` on two (non-`NaN`) numbers. -/
def jnMin (a b : JNum) : JNum := if jnLe a b then a else b

/-- JavaScript `Math.max` on two (non-`NaN`) numbers. -/
def jnMax (a b : JNum) : JNum := if jnLe a b then b else a

/-- Model of JavaScript `parseFloat` restricted to the alphabet
`parseNum` feeds it (digits, dot, minus): an optional leading minus,
then digits, then an optional dot and more digits; the longest valid
prefix is the value, and `none` stands for `NaN`. -/
def parseFloatD (s : String) : Option JNum :=
  let cs := s.toList
  let neg : Bool := match cs with | '-' :: _ => true | _ => false
  let rest : List Char := match cs with | '-' :: t => t | t => t
  let intDs := rest.takeWhile Char.isDigit
  let rest2 := rest.drop intDs.length
  let fracDs : List Char := match rest2 with
    | '.' :: t => t.takeWhile Char.isDigit
    | _ => []
  if intDs.isEmpty && fracDs.isEmpty then none
  else
    let mag : Nat := digitsVal intDs * 10 ^ fracDs.length + digitsVal fracDs
    some ⟨if neg then -(mag : Int) else (mag : Int), fracDs.length⟩

/-- `parseNum` from the source (lines 5-9): `null`/`undefined` give 0,
otherwise strip non-numeric characters, parse as a float, and default
to 0 when the parse is `NaN`.  (The JS `Number.isFinite` guard cannot
fire in the exact model: no exponent survives stripping, so the parse
of a stripped string is always finite.) -/
def parseNum : Option String → JNum
  | none => jnZero
  | some v =>
    match parseFloatD (stripNum v) with
    | none => jnZero
    | some q => q

/-- Remove trailing decimal zeros: divide the mantissa by 10 while the
exponent is positive and the mantissa is divisible, fuel-bounded by
the exponent. -/
def stripZeros : Nat → Nat → Nat → Nat × Nat
  | 0, m, e => (m, e)
  | _ + 1, m, 0 => (m, 0)
  | fuel + 1, m, e + 1 =>
    if m % 10 = 0 then stripZeros fuel (m / 10) e else (m, e + 1)

/-- Left-pad a digit string with zeros to a given width. -/
def padZeros (s : String) (w : Nat) : String :=
  String.mk (List.replicate (w - s.length) '0') ++ s

/-- Model of JavaScript `String(n)` on the decimal numbers the program
produces: sign, integer part, and the fractional digits with trailing
zeros removed (`String(12.50)` is `"12.5"`, `String(10)` is `"10"`,
`String(-0)` is `"0"`). -/
def qToString (n : JNum) : String :=
  let p := stripZeros n.e n.m.natAbs n.e
  let sign := if n.m < 0 then "-" else ""
  if p.2 = 0 then sign ++ toString p.1
  else
    sign ++ toString (p.1 / 10 ^ p.2) ++ "." ++ padZeros (toString (p.1 % 10 ^ p.2)) p.2

/-- JSON values as produced by `JSON.parse` (no `undefined`, no
`NaN`). -/
inductive JVal where
  | null : JVal
  | bool : Bool → JVal
  | num : JNum → JVal
  | str : String → JVal
  | arr : List JVal → JVal
  | obj : List (String × JVal) → JVal

/-- JavaScript truthiness of a JSON value. -/
def truthy : JVal → Bool
  | .null => false
  | .bool b => b
  | .num q => if jnEq q jnZero then false else true
  | .str s => if s = "" then false else true
  | .arr _ => true
  | .obj _ => true

/-- First binding of a key in an association list. -/
def findField : List (String × JVal) → String → Option JVal
  | [], _ => none
  | (k, v) :: t, key => if k = key then some v else findField t key

/-- JavaScript member access `v.k` on a non-null value: `none` is
`undefined`.  (Member access on `null` throws; callers in the source
only reach it on values already checked truthy or matched non-null.) -/
def getMember (v : JVal) (k : String) : Option JVal :=
  match v with
  | .obj fs => findField fs k
  | _ => none

/-- Replace the binding of a key in place (JavaScript object-literal
override keeps the key's original position), appending if absent. -/
def setField : List (String × JVal) → String → JVal → List (String × JVal)
  | [], k, v => [(k, v)]
  | (k', v') :: t, k, v =>
    if k' = k then (k, v) :: t else (k', v') :: setField t k v

/-- Index/value pairs for the spread of an array or a string. -/
def enumFields : Nat → List JVal → List (String × JVal)
  | _, [] => []
  | n, x :: t => (toString n, x) :: enumFields (n + 1) t

/-- Own enumerable fields contributed by `{...v}`: an object's fields,
an array's or string's indexed elements, nothing for primitives. -/
def spreadFields : JVal → List (String × JVal)
  | .obj fs => fs
  | .arr xs => enumFields 0 xs
  | .str s => enumFields 0 (s.toList.map (fun c => JVal.str (String.mk [c])))
  | _ => []

mutual
/-- JavaScript `String(v)` on JSON values. -/
def jsToString : JVal → String
  | .null => "null"
  | .bool b => if b then "true" else "false"
  | .num q => qToString q
  | .str s => s
  | .arr xs => jsArrToString xs
  | .obj _ => "[object Object]"

/-- `Array.prototype.toString`: elements joined by commas, with null
elements rendered empty. -/
def jsArrToString : List JVal → String
  | [] => ""
  | .null :: [] => ""
  | x :: [] => jsToString x
  | .null :: y :: t => "," ++ jsArrToString (y :: t)
  | x :: y :: t => jsToString x ++ "," ++ jsArrToString (y :: t)
end

/-- Nullish coalescing `a ?? b` where `none` is an absent member. -/
def jvOr (a : Option JVal) (b : JVal) : JVal :=
  match a with
  | some .null => b
  | some v => v
  | none => b

/-- The per-item normalization shared verbatim by the migration block
(lines 109-119) and `importJSON` (lines 256-266): copy the recognized
fields with `?? ""` defaults and the `qty ?? ltsaQty ?? ""` fallback.
`none` models the `TypeError` thrown by member access when the row is
`null`. -/
def normalizeItem (r : JVal) : Option JVal :=
  match r with
  | .null => none
  | _ => some (.obj
      [("maximoNo", jvOr (getMember r "maximoNo") (.str "")),
       ("item", jvOr (getMember r "item") (.str "")),
       ("description", jvOr (getMember r "description") (.str "")),
       ("tpi", jvOr (getMember r "tpi") (.str "")),
       ("material", jvOr (getMember r "material") (.str "")),
       ("grade", jvOr (getMember r "grade") (.str "")),
       ("unitCode", jvOr (getMember r "unitCode") (.str "")),
       ("qty", jvOr (getMember r "qty") (jvOr (getMember r "ltsaQty") (.str ""))),
       ("unitPrice", jvOr (getMember r "unitPrice") (.str ""))])

/-- Sales-entry conversion in the migration block (line 122):
`s === 0 ? "" : String(s ?? "")`. -/
def migrateSale (s : JVal) : JVal :=
  match s with
  | .num q => if jnEq q jnZero then .str "" else .str (qToString q)
  | .null => .str ""
  | v => .str (jsToString v)

/-- Sales-entry conversion in `importJSON` (line 268):
`s == null ? "" : String(s)`. -/
def importSale (s : JVal) : JVal :=
  match s with
  | .null => .str ""
  | v => .str (jsToString v)

/-- `defaultItem()` as a JSON value. -/
def defaultItemJson : JVal :=
  .obj [("maximoNo", .str ""), ("item", .str ""), ("description", .str ""),
        ("tpi", .str ""), ("material", .str ""), ("grade", .str ""),
        ("unitCode", .str ""), ("qty", .str ""), ("unitPrice", .str "")]

/-- `defaultHeader()` as a JSON value. -/
def defaultHeaderJson : JVal :=
  .obj [("poNumber", .str "419513"),
        ("ltsaNumber", .str "73000"),
        ("beneficiaryName", .str "Kuwait National Petroleum Company"),
        ("ltsaDescription", .str "Long-Term Service Agreement related to supply and support for refinery operations."),
        ("dateOfIssue", .str "2025-04-16"),
        ("siteDate", .str "2025-08-14"),
        ("francoDate", .str "2025-08-14"),
        ("status", .str "Supplier PO Released")]

/-- `defaultState()` as a JSON value (note: `sales` starts empty; the
length-sync rule pads it). -/
def defaultStateJson : JVal :=
  .obj [("option", .str "KNPC_73000"),
        ("header", defaultHeaderJson),
        ("items", .arr [defaultItemJson]),
        ("sales", .arr [])]

/-- Normalize a list of item rows in order, propagating the first
throw (a `null` row) as `none`, as the JS `Array.prototype.map`
does. -/
def normalizeItems : List JVal → Option (List JVal)
  | [] => some []
  | r :: t =>
    match normalizeItem r, normalizeItems t with
    | some r2, some t2 => some (r2 :: t2)
    | _, _ => none

/-- The migrated sales array (lines 121-123 of the `useState`
initializer's migration block): a non-array `sales` member becomes
the empty sequence, otherwise each entry goes through
`s === 0 ? "" : String(s ?? "")`. -/
def migrateSalesOf (old : JVal) : List JVal :=
  match getMember old "sales" with
  | some (.arr ss) => ss.map migrateSale
  | _ => []

/-- The migration block itself: rebuild the object with normalized
items and sales, spreading the remaining legacy fields through;
`none` models the thrown `TypeError` when an item row is `null`. -/
def migrate (old : JVal) : Option JVal :=
  match (match getMember old "items" with
         | some (.arr xs) => normalizeItems xs
         | _ => some [defaultItemJson]) with
  | none => none
  | some items2 =>
    some (.obj (setField (setField (spreadFields old) "items" (.arr items2))
                 "sales" (.arr (migrateSalesOf old))))

/-- Result of `importJSON` (lines 246-278): `failed` is the
"Import failed" alert from the outer catch, `invalid` the
"Invalid PO file" alert, `ok` carries the normalized document that is
persisted and becomes the new state. -/
inductive ImportResult where
  | failed : ImportResult
  | invalid : ImportResult
  | ok : JVal → ImportResult

/-- The `!data.header` validation: truthiness of the `header` member
(`false` both when the member is absent and when it is falsy). -/
def headerTruthy (d : JVal) : Bool :=
  match getMember d "header" with
  | some h => truthy h
  | none => false

/-- The normalized sales array of `importJSON` (lines 267-269): a
non-array `sales` member becomes the empty sequence, otherwise each
entry goes through `s == null ? "" : String(s)`. -/
def importSalesOf (d : JVal) : List JVal :=
  match getMember d "sales" with
  | some (.arr ss) => ss.map importSale
  | _ => []

/-- `importJSON` on the outcome of `JSON.parse` (`none` = the parse
threw).  Validation `!data || !data.header || !Array.isArray(data.items)`
precedes normalization; a `null` item row makes normalization throw,
which the outer catch turns into `failed`. -/
def importJSON (parsed : Option JVal) : ImportResult :=
  match parsed with
  | none => .failed
  | some data =>
    if truthy data = false then .invalid
    else if headerTruthy data = false then .invalid
    else
      match getMember data "items" with
      | some (.arr xs) =>
        (match normalizeItems xs with
         | none => .failed
         | some items2 =>
           .ok (.obj (setField (setField (spreadFields data) "items" (.arr items2))
                       "sales" (.arr (importSalesOf data)))))
      | _ => .invalid

/-- `importJSON` as a transformer of the in-memory state and the
persisted slot (lines 271-272 run only on the success path; both
rejection paths return before touching either). -/
def importStep (parsed : Option JVal) (st : JVal) (slot : Option JVal) : JVal × Option JVal :=
  match importJSON parsed with
  | .ok m => (m, some m)
  | _ => (st, slot)

/-- Outcome of reading one storage slot: absent (`getItem` returned
`null`, so `JSON.parse("null")` yields JSON null), malformed (the
parse throws), or a parsed value. -/
inductive SlotRead where
  | absent : SlotRead
  | malformed : SlotRead
  | value : JVal → SlotRead

/-- `JSON.parse(localStorage.getItem(key) || "null")`:
`none` models the thrown `SyntaxError`. -/
def readSlot : SlotRead → Option JVal
  | .absent => some .null
  | .malformed => none
  | .value v => some v

/-- The `useState` initializer (lines 94-133) over the three storage
slots (v3, v2, v1 in that order).  Returns the initial state together
with the optional write-back to the v3 slot.  The single surrounding
`try`/`catch` means any parse or migration throw anywhere yields the
default state; the v1 slot is parsed unconditionally even when v2
already holds a value. -/
def loadState (v3 v2 v1 : SlotRead) : JVal × Option JVal :=
  match readSlot v3 with
  | none => (defaultStateJson, none)
  | some v3v =>
    if truthy v3v then (v3v, none)
    else
      match readSlot v2, readSlot v1 with
      | some v2v, some v1v =>
        let old := if truthy v2v then v2v else v1v
        if truthy old then
          match migrate old with
          | some m => (m, some m)
          | none => (defaultStateJson, none)
        else (defaultStateJson, none)
      | _, _ => (defaultStateJson, none)

/-- One beneficiary preset from `BENEFICIARY_OPTIONS`. -/
structure Beneficiary where
  beneficiaryName : String
  ltsaNumber : String
  label : String
deriving DecidableEq

/-- The `BENEFICIARY_OPTIONS` table (lines 45-56) as a partial lookup:
`none` models the `undefined` a JS property access on an unknown key
yields. -/
def BENEFICIARY_OPTIONS (k : String) : Option Beneficiary :=
  if k = "KNPC_73000" then
    some ⟨"Kuwait National Petroleum Company", "73000",
          "Option 1: 73000 – Kuwait National Petroleum Company"⟩
  else if k = "KIPIC_71449" then
    some ⟨"Kuwait Integrated Petroleum Industries Company", "71449",
          "Option 2: 71449 – Kuwait Integrated Petroleum Industries Company"⟩
  else none

/-- The typed `header` record of the Document. -/
structure Header where
  poNumber : String
  ltsaNumber : String
  beneficiaryName : String
  ltsaDescription : String
  dateOfIssue : String
  siteDate : String
  francoDate : String
  status : String
deriving DecidableEq

/-- One line-item row; every field is free text. -/
structure Item where
  maximoNo : String
  item : String
  description : String
  tpi : String
  material : String
  grade : String
  unitCode : String
  qty : String
  unitPrice : String
deriving DecidableEq

/-- The typed Document: option key, header, items, positionally
aligned sales strings. -/
structure PoState where
  option : String
  header : Header
  items : List Item
  sales : List String
deriving DecidableEq

/-- `defaultHeader()` (lines 61-71). -/
def defaultHeader : Header :=
  ⟨"419513", "73000", "Kuwait National Petroleum Company",
   "Long-Term Service Agreement related to supply and support for refinery operations.",
   "2025-04-16", "2025-08-14", "2025-08-14", "Supplier PO Released"⟩

/-- `defaultItem()` (lines 73-83). -/
def defaultItem : Item := ⟨"", "", "", "", "", "", "", "", ""⟩

/-- `defaultState()` (lines 85-90): note `sales` starts empty. -/
def defaultState : PoState := ⟨"KNPC_73000", defaultHeader, [defaultItem], []⟩

/-- `newPO` (lines 197-203): full reset, with `sales` already `[""]`. -/
def newPO : PoState := ⟨"KNPC_73000", defaultHeader, [defaultItem], [""]⟩

/-- `addRow` (lines 214-219). -/
def addRow (s : PoState) : PoState :=
  { s with items := s.items ++ [defaultItem], sales := s.sales ++ [""] }

/-- `filter((_, x) => x !== i)`: drop the element at one index. -/
def removeIdx : List α → Nat → List α
  | [], _ => []
  | _ :: t, 0 => t
  | h :: t, n + 1 => h :: removeIdx t n

/-- `removeRow` (lines 221-227): no-op when exactly one item remains,
otherwise drop index `i` from both sequences. -/
def removeRow (i : Nat) (s : PoState) : PoState :=
  if s.items.length = 1 then s
  else { s with items := removeIdx s.items i, sales := removeIdx s.sales i }

/-- `clearAllItems` (lines 229-230). -/
def clearAllItems (s : PoState) : PoState :=
  { s with items := [defaultItem], sales := [""] }

/-- The option picker's `onChange` (line 355): store the selected key. -/
def setOption (k : String) (s : PoState) : PoState := { s with option := k }

/-- The option-to-header reactive rule (lines 149-156): look the option
up in `BENEFICIARY_OPTIONS` and overwrite `beneficiaryName` and
`ltsaNumber`.  `none` models the `TypeError` thrown when the lookup is
`undefined` (`b.beneficiaryName` on `undefined`). -/
def optionSync (s : PoState) : Option PoState :=
  match BENEFICIARY_OPTIONS s.option with
  | none => none
  | some b =>
    some { s with header :=
      { s.header with beneficiaryName := b.beneficiaryName,
                      ltsaNumber := b.ltsaNumber } }

/-- The sales-length reactive rule (lines 182-188): when the lengths
differ, rebuild `sales` indexed over `items`, keeping existing entries
and filling missing positions with the empty string. -/
def syncSales (s : PoState) : PoState :=
  if s.sales.length = s.items.length then s
  else { s with sales := (List.range s.items.length).map (fun i => s.sales.getD i "") }

/-- `qtyOf(items[i])` (line 159 with line 633): `row?.qty` is
`undefined` when the row does not exist. -/
def qtyOf (s : PoState) (i : Nat) : JNum :=
  match s.items.get? i with
  | some r => parseNum (some r.qty)
  | none => parseNum none

/-- The Sold QTY input's `onChange` (lines 631-642): clamp the parsed
input to `[0, qty]` via `Math.min(qtyN, Math.max(parseNum(typed), 0))`;
store the clamped number's string form when it differs from the raw
parse, the raw text otherwise. -/
def soldQtyEdit (i : Nat) (typed : String) (s : PoState) : PoState :=
  let qtyN := qtyOf s i
  let p := parseNum (some typed)
  let soldN := jnMin qtyN (jnMax p jnZero)
  let nextVal := if jnEq p soldN then typed else qToString soldN
  { s with sales := s.sales.set i nextVal }

/-- Classification text and colour of the franco banner. -/
structure FrancoInfo where
  text : String
  color : String
deriving DecidableEq

/-- `francoInfo` (lines 173-179) as a function of the `daysUntil`
result, with `none` standing for `NaN`. -/
def francoInfo : Option Int → FrancoInfo
  | none => ⟨"Invalid Franco Date", "#b91c1c"⟩
  | some d =>
    if d < 0 then
      ⟨"Franco date passed by " ++ toString d.natAbs ++ " day(s).", "#b91c1c"⟩
    else if d ≤ 15 then
      ⟨toString d ++ " day(s) left until Franco date.", "#b45309"⟩
    else
      ⟨toString d ++ " day(s) left until Franco date.", "#065f46"⟩

/-- A mutation step for the invariant claims: the in-memory row
operations, plus wholesale replacement of the state as import and
load-with-migration perform. -/
inductive PoOp where
  | addRowOp : PoOp
  | removeRowOp : Nat → PoOp
  | clearAllOp : PoOp
  | replaceOp : PoState → PoOp

/-- Apply one mutation step. -/
def applyOp : PoOp → PoState → PoState
  | .addRowOp, s => addRow s
  | .removeRowOp i, s => removeRow i s
  | .clearAllOp, s => clearAllItems s
  | .replaceOp s2, _ => s2

/-- Apply a sequence of mutation steps. -/
def applyOps (ops : List PoOp) (s : PoState) : PoState :=
  ops.foldl (fun st op => applyOp op st) s

/-! ## Semantic lemmas for the decimal number model -/

theorem jnVal_jnZero : jnVal jnZero = 0 := by
  simp [jnVal, jnZero]

theorem jnEq_iff (a b : JNum) : jnEq a b = true ↔ jnVal a = jnVal b := by
  unfold jnEq jnVal
  rw [div_eq_div_iff (by positivity) (by positivity), decide_eq_true_eq]
  constructor
  · intro h
    exact_mod_cast congrArg (fun z : Int => (z : Rat)) h
  · intro h
    exact_mod_cast h

theorem jnLe_iff (a b : JNum) : jnLe a b = true ↔ jnVal a ≤ jnVal b := by
  unfold jnLe jnVal
  rw [div_le_div_iff (by positivity) (by positivity), decide_eq_true_eq]
  constructor
  · intro h
    exact_mod_cast h
  · intro h
    exact_mod_cast h

theorem jnMin_val (a b : JNum) : jnVal (jnMin a b) = min (jnVal a) (jnVal b) := by
  unfold jnMin
  by_cases h : jnLe a b = true
  · rw [if_pos h, min_eq_left ((jnLe_iff a b).1 h)]
  · have h2 : ¬ jnVal a ≤ jnVal b := fun hv => h ((jnLe_iff a b).2 hv)
    rw [if_neg h, min_eq_right (le_of_not_le h2)]

theorem jnMax_val (a b : JNum) : jnVal (jnMax a b) = max (jnVal a) (jnVal b) := by
  unfold jnMax
  by_cases h : jnLe a b = true
  · rw [if_pos h]
    exact (max_eq_right ((jnLe_iff a b).1 h)).symm
  · have h2 : ¬ jnVal a ≤ jnVal b := fun hv => h ((jnLe_iff a b).2 hv)
    rw [if_neg h]
    exact (max_eq_left (le_of_not_le h2)).symm

/-! ## List access lemmas -/

theorem listGetD_of_le {α : Type} (l : List α) (i : Nat) (d : α) (h : l.length ≤ i) :
    l.getD i d = d := by
  rw [List.getD_eq_getElem?_getD, List.getElem?_eq_none h]
  rfl

theorem listGetD_range_map {α : Type} (n i : Nat) (f : Nat → α) (d : α) :
    ((List.range n).map f).getD i d = if i < n then f i else d := by
  rcases Nat.lt_or_ge i n with h | h
  · rw [List.getD_eq_getElem?_getD]
    simp [List.getElem?_map, List.getElem?_range, h]
  · rw [listGetD_of_le _ _ _ (by simpa using h), if_neg (Nat.not_lt.mpr h)]

theorem listGetD_set_self {α : Type} (l : List α) (i : Nat) (v d : α) (h : i < l.length) :
    (l.set i v).getD i d = v := by
  rw [List.getD_eq_getElem?_getD]
  simp [List.getElem?_set, h]

theorem listGetD_set_ne {α : Type} (l : List α) (i j : Nat) (v d : α) (h : j ≠ i) :
    (l.set i v).getD j d = l.getD j d := by
  rw [List.getD_eq_getElem?_getD, List.getD_eq_getElem?_getD]
  have h2 : i ≠ j := Ne.symm h
  simp [List.getElem?_set, h2]

theorem removeIdx_length_ge {α : Type} (l : List α) (i : Nat) :
    l.length - 1 ≤ (removeIdx l i).length := by
  induction l generalizing i with
  | nil => simp [removeIdx]
  | cons h t ih =>
    cases i with
    | zero => simp [removeIdx]
    | succ n =>
      have := ih n
      simp only [removeIdx, List.length_cons]
      omega

/-! ## Association list lemmas -/

theorem findField_setField_self (fs : List (String × JVal)) (k : String) (v : JVal) :
    findField (setField fs k v) k = some v := by
  induction fs with
  | nil => simp [setField, findField]
  | cons p t ih =>
    by_cases h : p.1 = k
    · simp [setField, h, findField]
    · simp [setField, h, findField, ih]

theorem findField_setField_ne (fs : List (String × JVal)) (k k2 : String) (v : JVal)
    (h : k2 ≠ k) : findField (setField fs k v) k2 = findField fs k2 := by
  induction fs with
  | nil => simp [setField, findField, Ne.symm h]
  | cons p t ih =>
    obtain ⟨pk, pv⟩ := p
    by_cases hp : pk = k
    · subst hp
      simp [setField, findField, Ne.symm h]
    · by_cases hp2 : pk = k2
      · subst hp2
        simp [setField, hp, findField, h]
      · simp [setField, hp, findField, hp2, ih]

/-- Nullish coalescing keeps a present non-null value. -/
theorem jvOr_some_of_ne_null (v b : JVal) (h : v ≠ .null) : jvOr (some v) b = v := by
  cases v <;> simp_all [jvOr]

/-! ## Sync rule lemmas -/

theorem syncSales_items (s : PoState) : (syncSales s).items = s.items := by
  unfold syncSales
  split <;> rfl

theorem syncSales_header (s : PoState) : (syncSales s).header = s.header := by
  unfold syncSales
  split <;> rfl

theorem syncSales_option (s : PoState) : (syncSales s).option = s.option := by
  unfold syncSales
  split <;> rfl

theorem syncSales_length (s : PoState) : (syncSales s).sales.length = s.items.length := by
  unfold syncSales
  split
  · next h => simpa using h
  · simp

theorem syncSales_of_eq (s : PoState) (h : s.sales.length = s.items.length) :
    syncSales s = s := by
  unfold syncSales
  simp [h]

theorem syncSales_getD (s : PoState) (i : Nat) :
    (syncSales s).sales.getD i "" = if i < s.items.length then s.sales.getD i "" else "" := by
  unfold syncSales
  split
  · next h =>
    by_cases hi : i < s.items.length
    · simp [hi]
    · rw [if_neg hi, listGetD_of_le]
      omega
  · simpa using listGetD_range_map s.items.length i (fun j => s.sales.getD j "") ""

/-! ## Claim theorems -/

/-- C1: for every Document and every sequence of mutations (addRow,
removeRow, clearAllItems, wholesale replacement as import and
load-with-migration perform), once the reactive length-sync rule has
run, `sales.length` equals `items.length`; the sync touches neither
the items, the header nor the option, preserves existing sales
entries by position, and fills new slots with the empty string. -/
theorem C1_sales_length_sync (s : PoState) (ops : List PoOp) (i : Nat) :
    (syncSales (applyOps ops s)).sales.length = (syncSales (applyOps ops s)).items.length ∧
    (syncSales s).items = s.items ∧
    (syncSales s).header = s.header ∧
    (syncSales s).option = s.option ∧
    (syncSales s).sales.getD i "" = (if i < s.items.length then s.sales.getD i "" else "") := by
  refine ⟨?_, syncSales_items s, syncSales_header s, syncSales_option s, syncSales_getD s i⟩
  rw [syncSales_length, syncSales_items]

/-- C7: both reactive sync rules are idempotent: re-running the
sales-length sync on its own output changes nothing, and when the
option-to-header sync succeeds, re-running it on the resulting
Document (whose option dependency is unchanged) returns that Document
unchanged. -/
theorem C7_sync_idempotent (s s2 : PoState) :
    syncSales (syncSales s) = syncSales s ∧
    (optionSync s = some s2 → optionSync s2 = some s2) := by
  constructor
  · exact syncSales_of_eq (syncSales s) (by rw [syncSales_length, syncSales_items])
  · intro h
    unfold optionSync at h ⊢
    cases hb : BENEFICIARY_OPTIONS s.option with
    | none => rw [hb] at h; cases h
    | some b =>
      rw [hb] at h
      injection h with h2
      subst h2
      cases s with
      | mk opt hd its sls =>
        cases hd
        rw [hb]

/-- C9: `francoInfo` classifies the `daysUntil` result in exactly
four tiers: `NaN` (modelled `none`) gives the invalid-date alert,
a negative day count gives the passed-by-N-days alert, a count in
`0..15` gives the warning tier, and a count above 15 the normal
tier (tiers being the colour/text pairs of the source). -/
theorem C9_franco_tiers (d : Int) :
    francoInfo none = ⟨"Invalid Franco Date", "#b91c1c"⟩ ∧
    (d < 0 → francoInfo (some d)
      = ⟨"Franco date passed by " ++ toString d.natAbs ++ " day(s).", "#b91c1c"⟩) ∧
    (0 ≤ d → d ≤ 15 → francoInfo (some d)
      = ⟨toString d ++ " day(s) left until Franco date.", "#b45309"⟩) ∧
    (15 < d → francoInfo (some d)
      = ⟨toString d ++ " day(s) left until Franco date.", "#065f46"⟩) := by
  refine ⟨rfl, ?_, ?_, ?_⟩
  · intro h
    simp [francoInfo, h]
  · intro h0 h15
    simp [francoInfo, show ¬ d < 0 by omega, h15]
  · intro h
    simp [francoInfo, show ¬ d < 0 by omega, show ¬ d ≤ 15 by omega]

/-- C9 witness: the tiers at the concrete day counts -3, 0, 15
and 20, and at an unparseable date. -/
theorem C9_franco_tiers_witness :
    francoInfo none = ⟨"Invalid Franco Date", "#b91c1c"⟩ ∧
    francoInfo (some (-3)) = ⟨"Franco date passed by 3 day(s).", "#b91c1c"⟩ ∧
    francoInfo (some 0) = ⟨"0 day(s) left until Franco date.", "#b45309"⟩ ∧
    francoInfo (some 15) = ⟨"15 day(s) left until Franco date.", "#b45309"⟩ ∧
    francoInfo (some 20) = ⟨"20 day(s) left until Franco date.", "#065f46"⟩ := by
  refine ⟨(C9_franco_tiers 0).1, ?_, ?_, ?_, ?_⟩
  · exact (C9_franco_tiers (-3)).2.1 (by decide)
  · exact (C9_franco_tiers 0).2.2.1 (by decide) (by decide)
  · exact (C9_franco_tiers 15).2.2.1 (by decide) (by decide)
  · exact (C9_franco_tiers 20).2.2.2 (by decide)

/-- C10: `parseNum` is a total function (it can neither throw nor
return a non-finite value in the exact model): `null`/`undefined`
maps to 0, `"12.50 KWD"` parses to the value 25/2, the result only
depends on the input's digit/dot/minus characters (stripping is
idempotent), and an unparseable remainder yields 0. -/
theorem C10_parseNum_total :
    parseNum none = jnZero ∧
    jnVal (parseNum (some "12.50 KWD")) = 25 / 2 ∧
    (∀ s : String, parseNum (some s) = parseNum (some (stripNum s))) ∧
    (∀ s : String, parseFloatD (stripNum s) = none → parseNum (some s) = jnZero) := by
  refine ⟨rfl, ?_, ?_, ?_⟩
  · have h : parseNum (some "12.50 KWD") = ⟨1250, 2⟩ := by decide
    rw [h]
    norm_num [jnVal]
  · intro s
    have h : stripNum (stripNum s) = stripNum s := by
      unfold stripNum
      simp [List.filter_filter]
    simp only [parseNum]
    rw [h]
  · intro s h
    simp only [parseNum]
    rw [h]

/-- C10 witness: the general clauses applied at the concrete strings
`"abc"` (unparseable, so 0) and `" 12 x"` (insensitive to the
stripped characters). -/
theorem C10_parseNum_total_witness :
    parseNum (some "abc") = jnZero ∧
    parseNum (some " 12 x") = parseNum (some "12") := by
  constructor
  · exact C10_parseNum_total.2.2.2 "abc" (by decide)
  · have h := C10_parseNum_total.2.2.1 " 12 x"
    rw [show stripNum " 12 x" = "12" from by decide] at h
    exact h

/-- C5: a sold-quantity edit of row `i` with typed text `t` clamps
`parseNum(t)` to the interval between 0 and the parsed row quantity
(computed as `min(qty, max(parse, 0))`, shown equal to the rational
`min`/`max` clamp); the stored entry is the raw text when the clamp
did not change the parsed value and the clamped number's decimal
string otherwise, and no other row or field changes. -/
theorem C5_sold_clamp (s : PoState) (i : Nat) (t : String) (h : i < s.sales.length) :
    (soldQtyEdit i t s).items = s.items ∧
    (soldQtyEdit i t s).header = s.header ∧
    (soldQtyEdit i t s).sales.length = s.sales.length ∧
    (∀ j, j ≠ i → (soldQtyEdit i t s).sales.getD j "" = s.sales.getD j "") ∧
    (soldQtyEdit i t s).sales.getD i ""
      = (if jnEq (parseNum (some t)) (jnMin (qtyOf s i) (jnMax (parseNum (some t)) jnZero))
         then t
         else qToString (jnMin (qtyOf s i) (jnMax (parseNum (some t)) jnZero))) ∧
    jnVal (jnMin (qtyOf s i) (jnMax (parseNum (some t)) jnZero))
      = min (jnVal (qtyOf s i)) (max (jnVal (parseNum (some t))) 0) := by
  refine ⟨rfl, rfl, by simp [soldQtyEdit], ?_, ?_, ?_⟩
  · intro j hj
    exact listGetD_set_ne s.sales i j _ "" hj
  · exact listGetD_set_self s.sales i _ "" h
  · rw [jnMin_val, jnMax_val, jnVal_jnZero]

/-- C5 witness: against a row quantity of `"10"`, typing `"999"`
stores the clamped string `"10"` while typing `"3 pcs"` is stored
verbatim (3 is within range). -/
theorem C5_sold_clamp_witness :
    (soldQtyEdit 0 "999"
        ⟨"KNPC_73000", defaultHeader, [{ defaultItem with qty := "10" }], [""]⟩).sales.getD 0 ""
      = "10" ∧
    (soldQtyEdit 0 "3 pcs"
        ⟨"KNPC_73000", defaultHeader, [{ defaultItem with qty := "10" }], [""]⟩).sales.getD 0 ""
      = "3 pcs" := by
  constructor
  · have h := (C5_sold_clamp
      ⟨"KNPC_73000", defaultHeader, [{ defaultItem with qty := "10" }], [""]⟩
      0 "999" (by decide)).2.2.2.2.1
    rw [h]
    decide
  · have h := (C5_sold_clamp
      ⟨"KNPC_73000", defaultHeader, [{ defaultItem with qty := "10" }], [""]⟩
      0 "3 pcs" (by decide)).2.2.2.2.1
    rw [h]
    decide

/-- C3: migrating the legacy shape `{items:[{ltsaQty:"5"}], sales:[0]}`
yields an item whose `qty` is `"5"` and a sales entry `""`; in
general a nonzero numeric sales entry becomes its decimal string, the
numeric zero sentinel becomes the empty string, every migrated sales
entry is a string, and per item the `qty` field falls back to
`ltsaQty` and missing fields default to the empty string. -/
theorem C3_migrate_legacy :
    migrate (.obj [("items", .arr [.obj [("ltsaQty", .str "5")]]), ("sales", .arr [.num ⟨0, 0⟩])])
      = some (.obj
          [("items", .arr [.obj
              [("maximoNo", .str ""), ("item", .str ""), ("description", .str ""),
               ("tpi", .str ""), ("material", .str ""), ("grade", .str ""),
               ("unitCode", .str ""), ("qty", .str "5"), ("unitPrice", .str "")]]),
           ("sales", .arr [.str ""])]) ∧
    (∀ q : JNum, jnEq q jnZero = false → migrateSale (.num q) = .str (qToString q)) ∧
    migrateSale (.num jnZero) = .str "" ∧
    (∀ v : JVal, ∃ t : String, migrateSale v = .str t) ∧
    (∀ (fs : List (String × JVal)) (v : JVal), findField fs "qty" = none →
      findField fs "ltsaQty" = some v → v ≠ .null →
      ∃ r, normalizeItem (.obj fs) = some r ∧ getMember r "qty" = some v) ∧
    (∀ fs : List (String × JVal), findField fs "tpi" = none →
      ∃ r, normalizeItem (.obj fs) = some r ∧ getMember r "tpi" = some (.str "")) := by
  refine ⟨rfl, ?_, rfl, ?_, ?_, ?_⟩
  · intro q hq
    simp [migrateSale, hq]
  · intro v
    cases v with
    | num q =>
      by_cases hq : jnEq q jnZero = true
      · exact ⟨"", by simp [migrateSale, hq]⟩
      · exact ⟨qToString q, by simp [migrateSale, hq]⟩
    | null => exact ⟨"", rfl⟩
    | bool b => exact ⟨jsToString (.bool b), rfl⟩
    | str t => exact ⟨t, rfl⟩
    | arr xs => exact ⟨jsToString (.arr xs), rfl⟩
    | obj fs => exact ⟨jsToString (.obj fs), rfl⟩
  · intro fs v h1 h2 h3
    refine ⟨_, rfl, ?_⟩
    show some (jvOr (findField fs "qty") (jvOr (findField fs "ltsaQty") (JVal.str ""))) = some v
    rw [h1, h2, jvOr_some_of_ne_null v _ h3]
    rfl
  · intro fs h1
    refine ⟨_, rfl, ?_⟩
    show some (jvOr (findField fs "tpi") (JVal.str "")) = some (JVal.str "")
    rw [h1]
    rfl

/-- C3 witness: the nonzero-sale clause at the number 5 and the
`ltsaQty` fallback clause at the row `{ltsaQty:"5"}`. -/
theorem C3_migrate_legacy_witness :
    migrateSale (.num ⟨5, 0⟩) = .str "5" ∧
    (∃ r, normalizeItem (.obj [("ltsaQty", .str "5")]) = some r
      ∧ getMember r "qty" = some (.str "5")) := by
  constructor
  · have h := C3_migrate_legacy.2.1 ⟨5, 0⟩ (by decide)
    rw [h]
    rfl
  · exact C3_migrate_legacy.2.2.2.2.1 [("ltsaQty", .str "5")] (.str "5") rfl rfl (by simp)

/-- C6 counterexample: the claim says importFromFile always yields a
Document with at least one item, but importing the valid-shaped file
`{"header":{},"items":[]}` succeeds and produces a Document whose
items member is the empty array (zero items). -/
theorem C6_nonempty_counterexample :
    importJSON (some (.obj [("header", .obj []), ("items", .arr [])]))
      = .ok (.obj [("header", .obj []), ("items", .arr []), ("sales", .arr [])]) ∧
    getMember (.obj [("header", .obj []), ("items", .arr []), ("sales", .arr [])]) "items"
      = some (.arr ([] : List JVal)) :=
  ⟨rfl, rfl⟩

/-- C6 amended: `removeRow` on a single-item Document is a no-op and
never empties a nonempty item list, `addRow`, `clearAllItems`,
`newPO` and the default Document keep at least one item, and `migrate`
substitutes a single default row only when the source has no items
array at all; `importFromFile`, `migrate` and `load` preserve the
length of a present items array and can therefore yield an empty item
list. -/
theorem C6_nonempty_amended (s : PoState) (i : Nat) :
    (s.items.length = 1 → removeRow i s = s) ∧
    (1 ≤ s.items.length → 1 ≤ (removeRow i s).items.length) ∧
    1 ≤ (addRow s).items.length ∧
    (clearAllItems s).items.length = 1 ∧
    newPO.items.length = 1 ∧
    defaultState.items.length = 1 ∧
    (∀ old m : JVal, getMember old "items" = none → migrate old = some m →
      getMember m "items" = some (.arr [defaultItemJson])) := by
  refine ⟨?_, ?_, by simp [addRow], rfl, rfl, rfl, ?_⟩
  · intro h
    unfold removeRow
    rw [if_pos h]
  · intro h
    unfold removeRow
    by_cases h1 : s.items.length = 1
    · rw [if_pos h1]
      omega
    · rw [if_neg h1]
      have h2 := removeIdx_length_ge s.items i
      show 1 ≤ (removeIdx s.items i).length
      omega
  · intro old m h1 h2
    unfold migrate at h2
    rw [h1] at h2
    injection h2 with h3
    subst h3
    simp only [getMember]
    rw [findField_setField_ne _ _ _ _ (by decide), findField_setField_self]

/-- C6 amended witness: the no-op clause and the migrate-default
clause at concrete inputs. -/
theorem C6_nonempty_amended_witness :
    removeRow 0 newPO = newPO ∧
    getMember (.obj [("items", .arr [defaultItemJson]), ("sales", .arr [])]) "items"
      = some (.arr [defaultItemJson]) := by
  constructor
  · exact (C6_nonempty_amended newPO 0).1 rfl
  · exact (C6_nonempty_amended newPO 0).2.2.2.2.2.2 (.obj []) _ rfl rfl

/-- C8 counterexample: the claim says unknown option keys are not
constructible through importFromFile, but importing
`{"header":{},"items":[],"option":"BOGUS"}` succeeds, the resulting
Document carries the option key `"BOGUS"`, and that key has no
beneficiary preset (so the option-to-header sync's lookup is
undefined on it). -/
theorem C8_option_counterexample :
    importJSON (some (.obj [("header", .obj []), ("items", .arr []), ("option", .str "BOGUS")]))
      = .ok (.obj [("header", .obj []), ("items", .arr []), ("option", .str "BOGUS"),
                   ("sales", .arr [])]) ∧
    getMember (.obj [("header", .obj []), ("items", .arr []), ("option", .str "BOGUS"),
                     ("sales", .arr [])]) "option" = some (.str "BOGUS") ∧
    BENEFICIARY_OPTIONS "BOGUS" = none :=
  ⟨rfl, rfl, rfl⟩

/-- C8 amended: the default Documents carry a valid option key,
selecting one of the two preset keys keeps the option valid, and
every non-loading mutator preserves option validity; only the
loading/import paths can introduce an unknown key. -/
theorem C8_option_amended (s : PoState) (k : String) (i : Nat) (t : String) :
    (BENEFICIARY_OPTIONS newPO.option).isSome = true ∧
    (BENEFICIARY_OPTIONS defaultState.option).isSome = true ∧
    ((k = "KNPC_73000" ∨ k = "KIPIC_71449") →
      (BENEFICIARY_OPTIONS (setOption k s).option).isSome = true) ∧
    ((BENEFICIARY_OPTIONS s.option).isSome = true →
      (BENEFICIARY_OPTIONS (addRow s).option).isSome = true ∧
      (BENEFICIARY_OPTIONS (removeRow i s).option).isSome = true ∧
      (BENEFICIARY_OPTIONS (clearAllItems s).option).isSome = true ∧
      (BENEFICIARY_OPTIONS (syncSales s).option).isSome = true ∧
      (BENEFICIARY_OPTIONS (soldQtyEdit i t s).option).isSome = true) := by
  refine ⟨rfl, rfl, ?_, ?_⟩
  · rintro (h | h) <;> subst h <;> rfl
  · intro h
    have hro : (removeRow i s).option = s.option := by
      unfold removeRow
      split <;> rfl
    refine ⟨h, ?_, h, ?_, h⟩
    · rw [hro]
      exact h
    · rw [syncSales_option]
      exact h

/-- C8 amended witness: option validity after selecting the second
preset and after adding a row to the default Document. -/
theorem C8_option_amended_witness :
    (BENEFICIARY_OPTIONS (setOption "KIPIC_71449" newPO).option).isSome = true ∧
    (BENEFICIARY_OPTIONS (addRow newPO).option).isSome = true := by
  constructor
  · exact (C8_option_amended newPO "KIPIC_71449" 0 "").2.2.1 (Or.inr rfl)
  · exact ((C8_option_amended newPO "" 0 "").2.2.2 rfl).1

/-- C2 counterexample: the claim says that when the current-version
slot is invalid the two legacy slots are attempted, but with a
malformed v3 slot and a valid, migratable legacy document in the v2
slot, `load` returns the default Document with no write-back: the
single surrounding catch turns the v3 parse error into the default
instead of falling through to the legacy slots. -/
theorem C2_load_counterexample :
    loadState .malformed (.value (.obj [("sales", .arr [])])) .absent
      = (defaultStateJson, none) ∧
    truthy (.obj [("sales", .arr [])]) = true ∧
    migrate (.obj [("sales", .arr [])])
      = some (.obj [("sales", .arr []), ("items", .arr [defaultItemJson])]) :=
  ⟨rfl, rfl, rfl⟩

/-- C2 amended: `load` is total (it never throws in the model); a
truthy current slot is returned as-is, an absent everything yields
the default Document, a falsy current slot with a truthy legacy slot
(v2 before v1) migrates that slot and writes the result back; but any
malformed slot in the chain (the v1 slot is parsed unconditionally)
aborts via the catch-all to the default Document with no legacy
fallthrough and no write-back. -/
theorem C2_load_amended (a b : SlotRead) (v m : JVal) :
    (truthy v = true → loadState (.value v) a b = (v, none)) ∧
    loadState .absent .absent .absent = (defaultStateJson, none) ∧
    (truthy v = true → migrate v = some m →
      loadState .absent (.value v) .absent = (m, some m)) ∧
    (truthy v = true → migrate v = some m →
      loadState .absent .absent (.value v) = (m, some m)) ∧
    loadState .malformed a b = (defaultStateJson, none) ∧
    loadState .absent a .malformed = (defaultStateJson, none) := by
  refine ⟨?_, rfl, ?_, ?_, ?_, ?_⟩
  · intro h
    simp [loadState, readSlot, h]
  · intro h1 h2
    have hn : truthy JVal.null = false := rfl
    simp [loadState, readSlot, h1, h2, hn]
  · intro h1 h2
    have hn : truthy JVal.null = false := rfl
    simp [loadState, readSlot, h1, h2, hn]
  · rfl
  · cases a <;> rfl

/-- C2 amended witness: a truthy v3 value is returned as-is, and a
legacy v2 object is migrated and written back when v3 is absent. -/
theorem C2_load_amended_witness :
    loadState (.value defaultStateJson) .absent .absent = (defaultStateJson, none) ∧
    loadState .absent (.value (.obj [("sales", .arr [])])) .absent
      = (.obj [("sales", .arr []), ("items", .arr [defaultItemJson])],
         some (.obj [("sales", .arr []), ("items", .arr [defaultItemJson])])) := by
  constructor
  · exact (C2_load_amended .absent .absent defaultStateJson defaultStateJson).1 rfl
  · exact (C2_load_amended .absent .absent (.obj [("sales", .arr [])]) _).2.2.1 rfl rfl

/-- C4 counterexample: the claim says "Import failed" is reported
exactly when JSON parsing throws, but the file
`{"header":{},"items":[null]}` parses fine, passes the shape
validation (truthy object, truthy header, items is an array), and
still reports "Import failed": the null item row makes the per-item
normalization throw inside the same try/catch. -/
theorem C4_import_counterexample :
    importJSON (some (.obj [("header", .obj []), ("items", .arr [JVal.null])])) = .failed ∧
    truthy (.obj [("header", .obj []), ("items", .arr [JVal.null])]) = true ∧
    headerTruthy (.obj [("header", .obj []), ("items", .arr [JVal.null])]) = true ∧
    getMember (.obj [("header", .obj []), ("items", .arr [JVal.null])]) "items"
      = some (.arr [JVal.null]) :=
  ⟨rfl, rfl, rfl, rfl⟩

/-- C4 amended: "Import failed" is reported when JSON parsing throws
and also when an exception occurs later in the import (a null item
row during normalization); "Invalid PO file" is reported exactly when
the parsed value is falsy, its `header` member is absent or falsy, or
its `items` member is not an array; in every rejection case neither
the in-memory Document nor the persisted slot changes; otherwise the
per-item normalization (shared with `migrate`) is applied, every
sales entry is coerced to a string (empty for null, absent array
dropped), and the normalized Document is persisted and returned. -/
theorem C4_import_amended (d : JVal) (xs items2 : List JVal) (parsed : Option JVal)
    (st : JVal) (slot : Option JVal) :
    importJSON none = .failed ∧
    (truthy d = false → importJSON (some d) = .invalid) ∧
    (truthy d = true → headerTruthy d = false → importJSON (some d) = .invalid) ∧
    (truthy d = true → headerTruthy d = true →
      (∀ ys : List JVal, getMember d "items" ≠ some (.arr ys)) →
      importJSON (some d) = .invalid) ∧
    (truthy d = true → headerTruthy d = true → getMember d "items" = some (.arr xs) →
      normalizeItems xs = none → importJSON (some d) = .failed) ∧
    (truthy d = true → headerTruthy d = true → getMember d "items" = some (.arr xs) →
      normalizeItems xs = some items2 →
      importJSON (some d)
        = .ok (.obj (setField (setField (spreadFields d) "items" (.arr items2))
            "sales" (.arr (importSalesOf d))))) ∧
    (importJSON parsed = .failed ∨ importJSON parsed = .invalid →
      importStep parsed st slot = (st, slot)) ∧
    importSale .null = .str "" ∧
    (∀ v : JVal, ∃ t2 : String, importSale v = .str t2) := by
  refine ⟨rfl, ?_, ?_, ?_, ?_, ?_, ?_, rfl, ?_⟩
  · intro h
    simp [importJSON, h]
  · intro h1 h2
    simp [importJSON, h1, h2]
  · intro h1 h2 h3
    rcases hm : getMember d "items" with _ | w
    · simp [importJSON, h1, h2, hm]
    · cases w with
      | arr ys => exact absurd hm (h3 ys)
      | null => simp [importJSON, h1, h2, hm]
      | bool c => simp [importJSON, h1, h2, hm]
      | num q => simp [importJSON, h1, h2, hm]
      | str t2 => simp [importJSON, h1, h2, hm]
      | obj fs => simp [importJSON, h1, h2, hm]
  · intro h1 h2 h3 h4
    simp [importJSON, h1, h2, h3, h4]
  · intro h1 h2 h3 h4
    simp [importJSON, h1, h2, h3, h4]
  · intro h
    rcases h with h | h <;> simp [importStep, h]
  · intro v
    cases v with
    | null => exact ⟨"", rfl⟩
    | bool c => exact ⟨jsToString (.bool c), rfl⟩
    | num q => exact ⟨jsToString (.num q), rfl⟩
    | str t2 => exact ⟨t2, rfl⟩
    | arr ys => exact ⟨jsToString (.arr ys), rfl⟩
    | obj fs => exact ⟨jsToString (.obj fs), rfl⟩

/-- C4 amended witness: the rejection clauses at a falsy file, a file
without header, a file whose items is not an array, and the no-change
clause at the failing null-item file. -/
theorem C4_import_amended_witness :
    importJSON (some (.bool false)) = .invalid ∧
    importJSON (some (.obj [("items", .arr [])])) = .invalid ∧
    importJSON (some (.obj [("header", .obj []), ("items", .str "nope")])) = .invalid ∧
    importStep (some (.obj [("header", .obj []), ("items", .arr [JVal.null])]))
      defaultStateJson none = (defaultStateJson, none) := by
  refine ⟨?_, ?_, ?_, ?_⟩
  · exact (C4_import_amended (.bool false) [] [] none defaultStateJson none).2.1 rfl
  · exact (C4_import_amended (.obj [("items", .arr [])]) [] [] none defaultStateJson
      none).2.2.1 rfl rfl
  · refine (C4_import_amended (.obj [("header", .obj []), ("items", .str "nope")]) [] [] none
      defaultStateJson none).2.2.2.1 rfl rfl ?_
    intro ys h
    simp [getMember, findField] at h
  · exact (C4_import_amended .null [] [] (some (.obj [("header", .obj []),
      ("items", .arr [JVal.null])])) defaultStateJson none).2.2.2.2.2.2.1 (Or.inl rfl)

/-- C7 witness: the sales-length sync is idempotent on the default
Document, and the option-to-header sync maps the fresh Document to
itself (its header already carries the preset values), so re-running
it returns the same Document. -/
theorem C7_sync_idempotent_witness :
    syncSales (syncSales defaultState) = syncSales defaultState ∧
    optionSync newPO = some newPO := by
  constructor
  · exact (C7_sync_idempotent defaultState defaultState).1
  · exact (C7_sync_idempotent newPO newPO).2 rfl
